import Mathlib

/-!
Verification of the StudyMate gateway/chatbot specification against the
repository sources.  JavaScript strings are modelled as lists of
characters (`Str`); `String.prototype.includes`, `toLowerCase` and `trim`
are modelled by executable functions on `Str`.
-/

set_option maxRecDepth 20000

/-- JavaScript strings, modelled as lists of characters. -/
abbrev Str := List Char

/-- Model of `String.prototype.toLowerCase` (ASCII letters, as used by the code). -/
def lowerStr (s : Str) : Str := s.map Char.toLower

/-- Does `sub` occur at the start of `s`?  Helper for `includesL`. -/
def startsWithL : Str → Str → Bool
  | _, [] => true
  | [], _ :: _ => false
  | c :: cs, d :: ds => c == d && startsWithL cs ds

/-- Model of `String.prototype.includes`: `includesL s sub` is true iff `sub`
occurs as a contiguous substring of `s`. -/
def includesL : Str → Str → Bool
  | [], sub => sub.isEmpty
  | c :: cs, sub => startsWithL (c :: cs) sub || includesL cs sub

/-- Model of JavaScript whitespace (the characters relevant to `trim`). -/
def isSpaceChar (c : Char) : Bool := c == ' ' || c == '\t' || c == '\n' || c == '\r'

/-- Model of `String.prototype.trim`. -/
def trimL (s : Str) : Str :=
  (((s.dropWhile isSpaceChar).reverse).dropWhile isSpaceChar).reverse

/-! ### The canned fallback responses of `getFallbackResponse` (DSAChatbot) -/

/-- The array/sorting canned answer. -/
def arrayResponse : Str :=
  "Arrays are fundamental data structures! For sorting:\n\n• **Bubble Sort**: O(n²) - Good for learning\n• **Quick Sort**: O(n log n) average - Very efficient\n• **Merge Sort**: O(n log n) - Stable, consistent\n\nKey tip: Practice with different array problems to master pointer techniques!".data

/-- The tree/binary canned answer. -/
def treeResponse : Str :=
  "Binary Trees are crucial for DSA! Key concepts:\n\n• **Traversals**: Inorder, Preorder, Postorder\n• **BST Properties**: Left < Root < Right\n• **Common Problems**: Height, Diameter, LCA\n\nStart with basic traversals and build up to complex tree problems!".data

/-- The graph/bfs/dfs canned answer. -/
def graphResponse : Str :=
  "Graph algorithms are powerful! Essential ones:\n\n• **BFS**: Level-order, shortest path in unweighted graphs\n• **DFS**: Deep exploration, cycle detection\n• **Dijkstra**: Shortest path with weights\n• **Union-Find**: Connected components\n\nVisualize the graph first, then choose the right traversal method!".data

/-- The dynamic-programming canned answer. -/
def dpResponse : Str :=
  "Dynamic Programming is all about optimization! Approach:\n\n1. **Identify**: Overlapping subproblems\n2. **Define**: State and recurrence relation\n3. **Implement**: Top-down (memoization) or bottom-up\n\nStart with Fibonacci, Climbing Stairs, then move to 2D DP problems!".data

/-- The time/complexity canned answer. -/
def complexityResponse : Str :=
  "Time Complexity Analysis:\n\n• **O(1)**: Constant - Hash operations\n• **O(log n)**: Logarithmic - Binary search\n• **O(n)**: Linear - Single loop\n• **O(n log n)**: Efficient sorting\n• **O(n²)**: Nested loops\n\nAlways analyze your solution and think about optimizations!".data

/-- The generic study-tip default answer. -/
def defaultResponse : Str :=
  "Great question! DSA is all about practice and understanding patterns. Here are some general tips:\n\n• Start with easy problems and build confidence\n• Focus on understanding patterns rather than memorizing\n• Practice coding by hand sometimes\n• Explain your approach before coding\n\nWhat specific DSA topic would you like to explore?".data

/-- `getFallbackResponse` of `DSAChatbot`: lowercase the query, then test the
keyword groups in source order and return the first matching canned answer,
falling through to the generic default. -/
def getFallbackResponse (query : Str) : Str :=
  let lowerQuery := lowerStr query
  if includesL lowerQuery "array".data || includesL lowerQuery "sorting".data then
    arrayResponse
  else if includesL lowerQuery "tree".data || includesL lowerQuery "binary".data then
    treeResponse
  else if includesL lowerQuery "graph".data || includesL lowerQuery "bfs".data || includesL lowerQuery "dfs".data then
    graphResponse
  else if includesL lowerQuery "dynamic".data || includesL lowerQuery "dp".data then
    dpResponse
  else if includesL lowerQuery "time".data || includesL lowerQuery "complexity".data then
    complexityResponse
  else
    defaultResponse

/-- The fixed topic table described by the spec, in table order:
array/sorting, tree/binary, graph/bfs/dfs, dynamic-programming/dp,
time/complexity. -/
def fallbackTable : List (List Str × Str) :=
  [(["array".data, "sorting".data], arrayResponse),
   (["tree".data, "binary".data], treeResponse),
   (["graph".data, "bfs".data, "dfs".data], graphResponse),
   (["dynamic".data, "dp".data], dpResponse),
   (["time".data, "complexity".data], complexityResponse)]

/-- First-match-wins classification over a topic table, as the spec words it:
return the first entry one of whose keywords occurs in the query, the generic
default text otherwise. -/
def classifyFirstMatch (q : Str) : List (List Str × Str) → Str
  | [] => defaultResponse
  | (kws, resp) :: rest =>
      if kws.any (fun k => includesL q k) then resp else classifyFirstMatch q rest

/-- The spec's `fallback(requestText)` written from its words: lowercase,
then first-match classification against the fixed topic table. -/
def fallbackSpec (query : Str) : Str := classifyFirstMatch (lowerStr query) fallbackTable

/-- `startsWithL` holds of a list and itself. -/
theorem startsWithL_self (s : Str) : startsWithL s s = true := by
  induction s with
  | nil => rfl
  | cons c cs ih => simp [startsWithL, ih]

/-- `includesL` is reflexive: every string contains itself. -/
theorem includesL_self (s : Str) : includesL s s = true := by
  cases s with
  | nil => rfl
  | cons c cs => simp [includesL, startsWithL_self]

/-- `Char.ofNat` at a valid codepoint has that codepoint as its `toNat`. -/
theorem toNat_ofNat_of_valid (n : Nat) (h : n.isValidChar) :
    (Char.ofNat n).toNat = n := by
  simp [Char.ofNat, dif_pos h, Char.ofNatAux, Char.toNat, UInt32.toNat]

/-- `Char.toLower` is idempotent. -/
theorem toLower_idem (c : Char) : c.toLower.toLower = c.toLower := by
  unfold Char.toLower
  by_cases h : c.toNat ≥ 65 ∧ c.toNat ≤ 90
  · rw [if_pos h]
    have hv : Nat.isValidChar (c.toNat + 32) := Or.inl (by omega)
    have ht : (Char.ofNat (c.toNat + 32)).toNat = c.toNat + 32 :=
      toNat_ofNat_of_valid _ hv
    rw [if_neg]
    rw [ht]
    omega
  · rw [if_neg h, if_neg h]

/-- Lowercasing is idempotent on strings. -/
theorem lowerStr_idem (s : Str) : lowerStr (lowerStr s) = lowerStr s := by
  simp [lowerStr, Function.comp_def, toLower_idem]

/-! ### The DSAChatbot message-send operation (`handleSendMessage`) -/

/-- A chat message: its text and whether it came from the bot. -/
structure Message where
  content : Str
  isBot : Bool
deriving DecidableEq

/-- The component state `handleSendMessage` reads and writes: the message
list, the input field, and the in-flight flag. -/
structure ChatState where
  messages : List Message
  inputValue : Str
  isLoading : Bool
deriving DecidableEq

/-- The possible outcomes of the `fetch` to the DSA service: the fetch call
throws, the response is non-2xx (`response.ok` false), or a 2xx response
whose JSON body may or may not carry a `response` field. -/
inductive FetchOutcome
  | fetchError (e : Str)
  | httpError
  | okResponse (resp : Option Str)
deriving DecidableEq

/-- The text used when a 2xx body has no `response` field. -/
def rephraseText : Str :=
  "I\x27m having trouble understanding that. Could you rephrase your question about DSA concepts?".data

/-- The error thrown on a non-2xx response inside the `try` block. -/
def httpErrorText : Str := "Failed to get response from DSA assistant".data

/-- The `try` block of `handleSendMessage`: either the live bot text
(`result.response || rephraseText`, where a missing or empty field is falsy),
or the transport/HTTP error that the surrounding `catch` will absorb. -/
def chatAttempt (o : FetchOutcome) : Except Str Str :=
  match o with
  | .fetchError e => .error e
  | .httpError => .error httpErrorText
  | .okResponse resp =>
      .ok (match resp with
           | some r => if r.isEmpty then rephraseText else r
           | none => rephraseText)

/-- Whether a response came from the live service or the local fallback. -/
inductive Source
  | LIVE
  | FALLBACK
deriving DecidableEq

/-- Result of one `handleSendMessage` call: the state afterwards, how many
network calls were made, and the source of the appended bot response (none
when the guard returned early). -/
structure SendResult where
  state : ChatState
  networkCalls : Nat
  botSource : Option Source
deriving DecidableEq

/-- `handleSendMessage` of `DSAChatbot`: return early when the trimmed input
is empty or a send is in flight; otherwise append the user message, clear the
input, attempt the live call, and append a bot message built from the live
response on success or from `getFallbackResponse` when the `try` block threw;
`finally` clears the loading flag. -/
def handleSendMessage (st : ChatState) (o : FetchOutcome) : SendResult :=
  if (trimL st.inputValue).isEmpty || st.isLoading then
    { state := st, networkCalls := 0, botSource := none }
  else
    let userMessage : Message := { content := st.inputValue, isBot := false }
    let outcome :=
      match chatAttempt o with
      | .ok c => (c, Source.LIVE)
      | .error _ => (getFallbackResponse st.inputValue, Source.FALLBACK)
    let botMessage : Message := { content := outcome.1, isBot := true }
    { state := { messages := st.messages ++ [userMessage, botMessage],
                 inputValue := [], isLoading := false },
      networkCalls := 1,
      botSource := some outcome.2 }

/-! ### CSECourseForm -/

/-- The fixed non-CSE keyword list of `handleCustomTopicChange`. -/
def nonCSEKeywords : List Str :=
  ["biology".data, "chemistry".data, "physics".data, "history".data,
   "geography".data, "literature".data, "arts".data, "music".data,
   "medical".data, "civil".data, "mechanical".data, "electrical".data]

/-- The non-CSE test of `handleCustomTopicChange`: some fixed keyword occurs
in the lowercased topic. -/
def isNonCSE (value : Str) : Bool :=
  nonCSEKeywords.any (fun keyword => includesL (lowerStr value) keyword)

/-- The `useState` cells of `CSECourseForm`. -/
structure FormState where
  selectedSubject : Str
  customTopic : Str
  purpose : Str
  difficulty : Str
  customPrompt : Str
  includeExamPrep : Bool
  showNonCSEWarning : Bool
deriving DecidableEq

/-- The initial `useState` values of `CSECourseForm`. -/
def initialFormState : FormState :=
  { selectedSubject := [], customTopic := [],
    purpose := "exam_preparation".data, difficulty := "intermediate".data,
    customPrompt := [], includeExamPrep := true, showNonCSEWarning := false }

/-- `handleSubjectSelect`: pick a predefined subject, clearing the custom
topic and the warning. -/
def handleSubjectSelect (st : FormState) (subject : Str) : FormState :=
  { st with selectedSubject := subject, customTopic := [], showNonCSEWarning := false }

/-- `handleCustomTopicChange`: set the custom topic, clear the subject, and
recompute the non-CSE warning from the new topic. -/
def handleCustomTopicChange (st : FormState) (value : Str) : FormState :=
  { st with customTopic := value, selectedSubject := [], showNonCSEWarning := isNonCSE value }

/-- The user interactions that mutate `CSECourseForm` state. -/
inductive FormEvent
  | selectSubject (s : Str)
  | changeTopic (t : Str)
  | choosePurpose (p : Str)
  | chooseDifficulty (d : Str)
  | editCustomPrompt (c : Str)
  | toggleExamPrep (b : Bool)

/-- One state update of `CSECourseForm` in response to a user interaction. -/
def formStep (st : FormState) : FormEvent → FormState
  | .selectSubject s => handleSubjectSelect st s
  | .changeTopic t => handleCustomTopicChange st t
  | .choosePurpose p => { st with purpose := p }
  | .chooseDifficulty d => { st with difficulty := d }
  | .editCustomPrompt c => { st with customPrompt := c }
  | .toggleExamPrep b => { st with includeExamPrep := b }

/-- The form state reached from the initial state by a sequence of user
interactions. -/
def formRun (events : List FormEvent) : FormState :=
  events.foldl formStep initialFormState

/-- The arguments `handleSubmit` passes to the `onSubmit` callback. -/
structure SubmitArgs where
  courseName : Str
  purpose : Str
  difficulty : Str
  customPrompt : Str
  includeExamPrep : Bool
deriving DecidableEq

/-- `const courseName = selectedSubject || customTopic` — the empty string is
falsy in JavaScript. -/
def chosenCourseName (st : FormState) : Str :=
  if st.selectedSubject.isEmpty then st.customTopic else st.selectedSubject

/-- `handleSubmit` of `CSECourseForm`: return without submitting when the
chosen course name trims to empty or the non-CSE warning is showing;
otherwise invoke `onSubmit`.  The form state itself is not modified. -/
def handleSubmit (st : FormState) : Option SubmitArgs × FormState :=
  let courseName := chosenCourseName st
  if (trimL courseName).isEmpty then (none, st)
  else if st.showNonCSEWarning then (none, st)
  else (some { courseName := courseName, purpose := st.purpose,
               difficulty := st.difficulty, customPrompt := st.customPrompt,
               includeExamPrep := st.includeExamPrep }, st)

/-! ### Gateway components modelled from the spec -/

/-- Modelled from the spec: the circuit phases of the API gateway's
per-service state machine; the gateway implementation itself is not among
the provided sources. -/
inductive CircuitPhase
  | CLOSED
  | OPEN
  | HALF_OPEN
deriving DecidableEq

/-- Modelled from the spec: per-service circuit bookkeeping — current phase,
consecutive failure count, and when the circuit last opened. -/
structure CircuitState where
  phase : CircuitPhase
  consecutiveFailures : Nat
  openedAt : Nat
deriving DecidableEq

/-- Modelled from the spec: circuit configuration — failure threshold and
cool-down interval. -/
structure CircuitConfig where
  threshold : Nat
  cooldownMs : Nat
deriving DecidableEq

/-- Modelled from the spec: the outcome of one call routed under the circuit
policy — the state afterwards, the response source, and the number of
network attempts made (0 or 1). -/
structure CircuitCallResult where
  state : CircuitState
  source : Source
  networkAttempts : Nat
deriving DecidableEq

/-- Modelled from the spec: the HALF_OPEN probe — success resets to CLOSED
and clears `consecutiveFailures`; failure returns to OPEN and resets the
cool-down timer. -/
def circuitProbe (st : CircuitState) (now : Nat) (upstreamOk : Bool) : CircuitCallResult :=
  if upstreamOk then
    { state := { phase := .CLOSED, consecutiveFailures := 0, openedAt := st.openedAt },
      source := .LIVE, networkAttempts := 1 }
  else
    { state := { phase := .OPEN, consecutiveFailures := st.consecutiveFailures, openedAt := now },
      source := .FALLBACK, networkAttempts := 1 }

/-- Modelled from the spec: one call routed under the circuit policy.
CLOSED passes through — success clears the failure counter, failure
increments it and opens the circuit when the threshold is reached; OPEN
within the cool-down short-circuits to fallback with no network attempt;
once the cool-down has elapsed the next call is the single HALF_OPEN
probe. -/
def circuitCall (cfg : CircuitConfig) (st : CircuitState) (now : Nat) (upstreamOk : Bool) :
    CircuitCallResult :=
  match st.phase with
  | .CLOSED =>
      if upstreamOk then
        { state := { st with consecutiveFailures := 0 }, source := .LIVE, networkAttempts := 1 }
      else
        let f := st.consecutiveFailures + 1
        if cfg.threshold ≤ f then
          { state := { phase := .OPEN, consecutiveFailures := f, openedAt := now },
            source := .FALLBACK, networkAttempts := 1 }
        else
          { state := { st with consecutiveFailures := f },
            source := .FALLBACK, networkAttempts := 1 }
  | .OPEN =>
      if now < st.openedAt + cfg.cooldownMs then
        { state := st, source := .FALLBACK, networkAttempts := 0 }
      else
        circuitProbe st now upstreamOk
  | .HALF_OPEN => circuitProbe st now upstreamOk

/-- Modelled from the spec: the credential resolver's failure. -/
inductive CredentialError
  | MissingCredentialError
deriving DecidableEq

/-- Modelled from the spec: the gateway credential configuration — an
optional default API key plus per-service override keys, mirroring the
documented `GROQ_API_KEY` default with per-service `<SERVICE>_GROQ_KEY`
overrides; the resolver implementation is not among the provided sources. -/
structure CredentialConfig where
  defaultKey : Option Str
  overrideKeys : List (Str × Str)
deriving DecidableEq

/-- Modelled from the spec: `credentialFor(serviceName)` — use the
service-specific key when present and non-empty, otherwise the default key,
failing with `MissingCredentialError` when neither exists. -/
def credentialFor (cfg : CredentialConfig) (svc : Str) : Except CredentialError Str :=
  match cfg.overrideKeys.lookup svc with
  | some k =>
      if k.isEmpty then
        match cfg.defaultKey with
        | some d => .ok d
        | none => .error .MissingCredentialError
      else .ok k
  | none =>
      match cfg.defaultKey with
      | some d => .ok d
      | none => .error .MissingCredentialError

/-- Modelled from the spec: a service descriptor held by the registry. -/
structure ServiceDescriptor where
  name : Str
  baseURL : Str
  healthPath : Str
  timeoutMs : Nat
  maxRetries : Nat
deriving DecidableEq

/-- Modelled from the spec: the registry's failure for unknown names. -/
inductive RegistryError
  | UnknownServiceError
deriving DecidableEq

/-- Modelled from the spec: the service registry — a static name-to-
descriptor table loaded once at startup; the registry implementation is not
among the provided sources. -/
abbrev Registry := List (Str × ServiceDescriptor)

/-- Modelled from the spec: `resolve(name)` — return the configured
descriptor or fail with `UnknownServiceError`; the registry is passed
through unchanged, there is no runtime mutation. -/
def resolve (reg : Registry) (name : Str) :
    Except RegistryError ServiceDescriptor × Registry :=
  match reg.lookup name with
  | some d => (.ok d, reg)
  | none => (.error .UnknownServiceError, reg)

/-- The registry of the four run-book services, used to exercise `resolve`. -/
def demoRegistry : Registry :=
  [("course-service".data, ⟨"course-service".data, "http://localhost:8001".data, "/health".data, 30000, 2⟩),
   ("dsa-service".data, ⟨"dsa-service".data, "http://localhost:8002".data, "/health".data, 5000, 2⟩),
   ("resume-analyzer".data, ⟨"resume-analyzer".data, "http://localhost:8003".data, "/health".data, 30000, 2⟩),
   ("profile-service".data, ⟨"profile-service".data, "http://localhost:8006".data, "/health".data, 5000, 2⟩)]

/-! ### Helper lemmas -/

/-- One form interaction preserves the warning invariant: the non-CSE warning
flag always equals the non-CSE test of the current custom topic. -/
theorem formStep_warning (st : FormState) (e : FormEvent)
    (h : st.showNonCSEWarning = isNonCSE st.customTopic) :
    (formStep st e).showNonCSEWarning = isNonCSE (formStep st e).customTopic := by
  cases e <;>
    (simp [formStep, handleSubjectSelect, handleCustomTopicChange, h]; try decide)

/-- The warning invariant is preserved through any interaction sequence. -/
theorem foldl_formStep_warning (events : List FormEvent) :
    ∀ st : FormState, st.showNonCSEWarning = isNonCSE st.customTopic →
      (events.foldl formStep st).showNonCSEWarning
        = isNonCSE ((events.foldl formStep st).customTopic) := by
  induction events with
  | nil => intro st h; simpa using h
  | cons e es ih => intro st h; simpa using ih (formStep st e) (formStep_warning st e h)

/-- Every fallback output is one of the six canned texts. -/
theorem getFallbackResponse_cases (q : Str) :
    getFallbackResponse q ∈
      [arrayResponse, treeResponse, graphResponse, dpResponse,
       complexityResponse, defaultResponse] := by
  simp only [getFallbackResponse]
  split_ifs <;> simp

/-! ### Claim theorems -/

/-- C1: `getFallbackResponse` classifies every request by keyword membership
against the fixed topic table in table order (array/sorting, tree/binary,
graph/bfs/dfs, dynamic-programming/dp, time/complexity), returning the first
matching topic's canned answer and the generic study-tip text when no keyword
matches; in particular the sorting query's answer contains the array/sorting
entry text, the DFS query's answer contains the graph entry text, and a junk
query returns the generic default text. -/
theorem fallback_matches_table :
    (∀ q : Str, getFallbackResponse q = fallbackSpec q)
    ∧ includesL (getFallbackResponse "best sorting algorithm for arrays".data) arrayResponse = true
    ∧ includesL (getFallbackResponse "explain DFS on a graph".data) graphResponse = true
    ∧ getFallbackResponse "asdkjh".data = defaultResponse := by
  refine ⟨fun q => ?_, ?_, ?_, by decide⟩
  · simp only [getFallbackResponse, fallbackSpec, fallbackTable, classifyFirstMatch,
      List.any_cons, List.any_nil, Bool.or_false, Bool.or_assoc]
  · have h : getFallbackResponse "best sorting algorithm for arrays".data = arrayResponse := by
      decide
    rw [h]
    exact includesL_self _
  · have h : getFallbackResponse "explain DFS on a graph".data = graphResponse := by
      decide
    rw [h]
    exact includesL_self _

/-- C2: whatever the outcome of the upstream chat call — success, thrown
fetch error, or non-2xx HTTP status — `handleSendMessage` appends a
well-formed bot response and never propagates the transport error; on any
failure the bot content is built by `getFallbackResponse`. -/
theorem sendMessage_total_response (st : ChatState) (o : FetchOutcome)
    (h1 : (trimL st.inputValue).isEmpty = false) (h2 : st.isLoading = false) :
    ∃ bot : Message,
      (handleSendMessage st o).state.messages
        = st.messages ++ [{ content := st.inputValue, isBot := false }, bot]
      ∧ bot.isBot = true
      ∧ (∀ e, chatAttempt o = .error e → bot.content = getFallbackResponse st.inputValue)
      ∧ (∀ c, chatAttempt o = .ok c → bot.content = c) := by
  cases ha : chatAttempt o with
  | ok c =>
      refine ⟨⟨c, true⟩, ?_, rfl, ?_, ?_⟩ <;>
        simp [handleSendMessage, ha, h1, h2]
  | error e =>
      refine ⟨⟨getFallbackResponse st.inputValue, true⟩, ?_, rfl, ?_, ?_⟩ <;>
        simp [handleSendMessage, ha, h1, h2]

/-- Witness for C2: a concrete send over a failing (non-2xx) upstream. -/
theorem sendMessage_total_response_witness :
    ∃ bot : Message,
      (handleSendMessage ⟨[], "hi".data, false⟩ FetchOutcome.httpError).state.messages
        = [] ++ [{ content := "hi".data, isBot := false }, bot]
      ∧ bot.isBot = true
      ∧ (∀ e, chatAttempt FetchOutcome.httpError = .error e →
           bot.content = getFallbackResponse "hi".data)
      ∧ (∀ c, chatAttempt FetchOutcome.httpError = .ok c → bot.content = c) :=
  sendMessage_total_response ⟨[], "hi".data, false⟩ FetchOutcome.httpError (by decide) rfl

/-- C3: the circuit state machine — from CLOSED each failure increments
`consecutiveFailures` and the phase moves to OPEN exactly when the count
reaches the threshold; while OPEN within the cool-down window every call
returns `source = FALLBACK` with zero network attempts; once the cool-down
has elapsed the next call is the single HALF_OPEN probe, whose success
returns to CLOSED with `consecutiveFailures` reset to 0 and whose failure
returns to OPEN with the cool-down timer reset. -/
theorem circuit_transitions (cfg : CircuitConfig) (st : CircuitState) (now : Nat) (ok : Bool) :
    (st.phase = .CLOSED →
       (circuitCall cfg st now false).state.consecutiveFailures = st.consecutiveFailures + 1
       ∧ ((circuitCall cfg st now false).state.phase = .OPEN
            ↔ cfg.threshold ≤ st.consecutiveFailures + 1))
    ∧ (st.phase = .OPEN → now < st.openedAt + cfg.cooldownMs →
       circuitCall cfg st now ok = ⟨st, .FALLBACK, 0⟩)
    ∧ (st.phase = .OPEN → st.openedAt + cfg.cooldownMs ≤ now →
       (circuitCall cfg st now ok).networkAttempts = 1
       ∧ (ok = true → (circuitCall cfg st now ok).state
            = ⟨.CLOSED, 0, st.openedAt⟩)
       ∧ (ok = false → (circuitCall cfg st now ok).state
            = ⟨.OPEN, st.consecutiveFailures, now⟩)) := by
  refine ⟨fun hp => ?_, fun hp hc => ?_, fun hp hc => ?_⟩
  · by_cases ht : cfg.threshold ≤ st.consecutiveFailures + 1 <;>
      simp [circuitCall, hp, ht]
  · simp [circuitCall, hp, hc]
  · have hnc : ¬ now < st.openedAt + cfg.cooldownMs := by omega
    cases ok <;> simp [circuitCall, circuitProbe, hp, hnc]

/-- Witness for C3: a concrete OPEN circuit inside its cool-down window
short-circuits with zero network attempts. -/
theorem circuit_transitions_witness :
    circuitCall ⟨3, 100⟩ ⟨.OPEN, 3, 0⟩ 50 false = ⟨⟨.OPEN, 3, 0⟩, .FALLBACK, 0⟩ :=
  (circuit_transitions ⟨3, 100⟩ ⟨.OPEN, 3, 0⟩ 50 false).2.1 rfl (by decide)

/-- C4: the fallback function is deterministic and total — equal inputs give
equal outputs, and every input yields one of the fixed canned strings. -/
theorem fallback_deterministic_total (q : Str) :
    (∀ q2 : Str, q2 = q → getFallbackResponse q2 = getFallbackResponse q)
    ∧ getFallbackResponse q ∈
      [arrayResponse, treeResponse, graphResponse, dpResponse,
       complexityResponse, defaultResponse] :=
  ⟨fun _ h => by rw [h], getFallbackResponse_cases q⟩

/-- Witness for C4: determinism and totality at a concrete query. -/
theorem fallback_deterministic_total_witness :
    getFallbackResponse "asdkjh".data = getFallbackResponse "asdkjh".data
    ∧ getFallbackResponse "asdkjh".data ∈
      [arrayResponse, treeResponse, graphResponse, dpResponse,
       complexityResponse, defaultResponse] :=
  ⟨(fallback_deterministic_total "asdkjh".data).1 "asdkjh".data rfl,
   (fallback_deterministic_total "asdkjh".data).2⟩

/-- C5: a FALLBACK-sourced bot response arises exactly when a send actually
happened and the live call failed (fetch threw or the HTTP status was
non-2xx); a successful live call never yields a FALLBACK-sourced response. -/
theorem fallback_source_only_on_failure (st : ChatState) (o : FetchOutcome) :
    ((handleSendMessage st o).botSource = some Source.FALLBACK
      ↔ ((trimL st.inputValue).isEmpty = false ∧ st.isLoading = false
          ∧ (o = .httpError ∨ ∃ e, o = .fetchError e)))
    ∧ (∀ resp, (handleSendMessage st (.okResponse resp)).botSource = some Source.LIVE
         ∨ (handleSendMessage st (.okResponse resp)).botSource = none) := by
  constructor
  · cases o <;>
      by_cases h1 : (trimL st.inputValue).isEmpty <;>
      by_cases h2 : st.isLoading <;>
      simp [handleSendMessage, chatAttempt, h1, h2]
  · intro resp
    by_cases h1 : (trimL st.inputValue).isEmpty <;>
      by_cases h2 : st.isLoading <;>
      simp [handleSendMessage, chatAttempt, h1, h2]

/-- Witness for C5: a successful live call yields a LIVE-sourced response. -/
theorem fallback_source_only_on_failure_witness :
    (handleSendMessage ⟨[], "hello".data, false⟩
        (FetchOutcome.okResponse none)).botSource = some Source.LIVE
    ∨ (handleSendMessage ⟨[], "hello".data, false⟩
        (FetchOutcome.okResponse none)).botSource = none :=
  (fallback_source_only_on_failure ⟨[], "hello".data, false⟩
    (FetchOutcome.okResponse none)).2 none

/-- C6: credential resolution returns the non-empty service-specific
override when it exists, otherwise the default key, and fails with
`MissingCredentialError` exactly when neither a non-empty override nor a
default key exists. -/
theorem credential_resolution (cfg : CredentialConfig) (svc : Str) :
    (∀ k, cfg.overrideKeys.lookup svc = some k → k ≠ [] → credentialFor cfg svc = .ok k)
    ∧ (∀ d, cfg.defaultKey = some d →
        (cfg.overrideKeys.lookup svc = none ∨ cfg.overrideKeys.lookup svc = some []) →
        credentialFor cfg svc = .ok d)
    ∧ (credentialFor cfg svc = .error .MissingCredentialError
        ↔ cfg.defaultKey = none
          ∧ (cfg.overrideKeys.lookup svc = none ∨ cfg.overrideKeys.lookup svc = some [])) := by
  refine ⟨?_, ?_, ?_⟩
  · intro k hk hne
    simp [credentialFor, hk, List.isEmpty_iff, hne]
  · intro d hd hov
    rcases hov with h | h <;> simp [credentialFor, h, hd]
  · rcases hl : cfg.overrideKeys.lookup svc with _ | k
    · rcases hdk : cfg.defaultKey with _ | d <;> simp [credentialFor, hl, hdk]
    · rcases hdk : cfg.defaultKey with _ | d <;> rcases k with _ | ⟨c, cs⟩ <;>
        simp [credentialFor, hl, hdk]

/-- Witness for C6: a non-empty override takes precedence over the default. -/
theorem credential_resolution_witness :
    credentialFor
        ⟨some "default-key".data, [("course-service".data, "course-key".data)]⟩
        "course-service".data
      = .ok "course-key".data :=
  (credential_resolution
      ⟨some "default-key".data, [("course-service".data, "course-key".data)]⟩
      "course-service".data).1
    "course-key".data (by decide) (by decide)

/-- C7: `resolve` returns the configured descriptor for every name present
in the registry, fails with `UnknownServiceError` for every absent name, and
leaves the registry unchanged. -/
theorem registry_resolve_contract (reg : Registry) (name : Str) :
    (∀ d, reg.lookup name = some d → resolve reg name = (.ok d, reg))
    ∧ (reg.lookup name = none → resolve reg name = (.error .UnknownServiceError, reg))
    ∧ (resolve reg name).2 = reg := by
  refine ⟨fun d hd => by simp [resolve, hd], fun h => by simp [resolve, h], ?_⟩
  rcases h : reg.lookup name with _ | d <;> simp [resolve, h]

/-- Witness for C7: resolution over the run-book registry — a known service
resolves to its descriptor, an unknown name fails. -/
theorem registry_resolve_witness :
    resolve demoRegistry "course-service".data
        = (.ok ⟨"course-service".data, "http://localhost:8001".data, "/health".data, 30000, 2⟩,
           demoRegistry)
    ∧ resolve demoRegistry "unknown".data = (.error .UnknownServiceError, demoRegistry) :=
  ⟨(registry_resolve_contract demoRegistry "course-service".data).1 _ (by decide),
   (registry_resolve_contract demoRegistry "unknown".data).2.1 (by decide)⟩

/-- C8: the fallback function is case-insensitive — it lowercases the query
before keyword matching, so a pre-lowercased query gives the same answer. -/
theorem fallback_case_insensitive (q : Str) :
    getFallbackResponse (lowerStr q) = getFallbackResponse q := by
  simp only [getFallbackResponse, lowerStr_idem]

/-- C9: with empty/whitespace-only input or a send already in flight,
`handleSendMessage` returns immediately — state unchanged, no network
call. -/
theorem sendMessage_guard_frame (st : ChatState) (o : FetchOutcome)
    (h : (trimL st.inputValue).isEmpty = true ∨ st.isLoading = true) :
    handleSendMessage st o = ⟨st, 0, none⟩ := by
  rcases h with h | h <;> simp [handleSendMessage, h]

/-- Witness for C9: whitespace-only input leaves the state untouched. -/
theorem sendMessage_guard_frame_witness :
    handleSendMessage ⟨[], "   ".data, false⟩ FetchOutcome.httpError
      = ⟨⟨[], "   ".data, false⟩, 0, none⟩ :=
  sendMessage_guard_frame ⟨[], "   ".data, false⟩ FetchOutcome.httpError (Or.inl (by decide))

/-- C10: in every reachable form state, `handleSubmit` does not invoke
`onSubmit` when the chosen course name trims to empty or the custom topic
contains a non-CSE keyword (case-insensitively), and it leaves the form
state unchanged. -/
theorem cse_form_no_invalid_submit (events : List FormEvent)
    (h : (trimL (chosenCourseName (formRun events))).isEmpty = true
         ∨ isNonCSE ((formRun events).customTopic) = true) :
    handleSubmit (formRun events) = (none, formRun events) := by
  have hw : (formRun events).showNonCSEWarning = isNonCSE ((formRun events).customTopic) :=
    foldl_formStep_warning events initialFormState (by decide)
  rcases h with h | h
  · simp [handleSubmit, h]
  · by_cases ht : (trimL (chosenCourseName (formRun events))).isEmpty = true
    · simp [handleSubmit, ht]
    · simp [handleSubmit, ht, hw, h]

/-- Witness for C10: typing a topic containing "biology" blocks submission. -/
theorem cse_form_no_invalid_submit_witness :
    handleSubmit (formRun [FormEvent.changeTopic "history of biology".data])
      = (none, formRun [FormEvent.changeTopic "history of biology".data]) :=
  cse_form_no_invalid_submit [FormEvent.changeTopic "history of biology".data]
    (Or.inr (by decide))
